import Mathlib

/-!
Verification of the ONNX serving request pipeline
(src/pkg/workloads/cortex/onnx_serve/api.py).

The embedding models decoded JSON request data, the engine input descriptors
cached in `local_cache`, tensor coercion (`transform_to_numpy`), sample
dispatch (`convert_to_onnx_input`), output marshalling, and the batch request
handler (`predict`).  Tensor coercion reads the descriptor shape through the
read-only NodeArg shape property of onnxruntime, which builds a fresh list on
every access; the resolution loop therefore acts on a call-local list, and
`transform_to_numpy` returns that resolved call-local view next to its result
while the shared descriptors themselves stay unchanged.  The optional request
handler hooks and the inference session are external collaborators and are
taken as function parameters.
-/

set_option maxHeartbeats 1000000

/-- A decoded JSON value (the result of flask request.get_json).  Numbers are
modelled as integers; no claim depends on fractional values. -/
inductive Json where
  | null : Json
  | bool : Bool → Json
  | num : Int → Json
  | str : String → Json
  | arr : List Json → Json
  | obj : List (String × Json) → Json

/-- Python x is None on a decoded JSON value. -/
def isNull : Json → Bool
  | .null => true
  | _ => false

/-- Python isinstance(x, dict), the util.is_dict check on decoded JSON. -/
def is_dict : Json → Bool
  | .obj _ => true
  | _ => false

/-- Python isinstance(x, list), the util.is_list check on decoded JSON. -/
def is_list : Json → Bool
  | .arr _ => true
  | _ => false

/-- First-match association lookup; Python dict keys are unique, so this
models dict indexing on well-formed decoded objects. -/
def assocLookup {α : Type} : List (String × α) → String → Option α
  | [], _ => none
  | (k, v) :: rest, key => if k = key then some v else assocLookup rest key

/-- Python dict.get on a decoded JSON value (none when the receiver is not a
dict or the key is absent). -/
def jsonGet (s : Json) (key : String) : Option Json :=
  match s with
  | .obj kvs => assocLookup kvs key
  | _ => none

/-- Python membership test: key in payload, for a decoded JSON dict. -/
def jsonHasKey (s : Json) (key : String) : Bool :=
  match s with
  | .obj kvs => kvs.any (fun kv => kv.1 = key)
  | _ => false

/-- Python sample.get(key) is None: true when the key is absent or its value
is JSON null (Python None). -/
def getIsNone (s : Json) (key : String) : Bool :=
  match jsonGet s key with
  | none => true
  | some Json.null => true
  | some _ => false

/-- payload[key] at call sites where the key is known to be present; absent
keys default to null (never exercised behind the membership guard). -/
def jsonGetD (s : Json) (key : String) : Json :=
  (jsonGet s key).getD Json.null

/-- The list underlying a decoded JSON array (call sites are guarded by
is_list). -/
def asArr : Json → List Json
  | .arr xs => xs
  | _ => []

/-- Python type name of a decoded JSON value, as it appears in error
messages.  Numbers are modelled as int. -/
def pyTypeName : Json → String
  | .null => "NoneType"
  | .bool _ => "bool"
  | .num _ => "int"
  | .str _ => "str"
  | .arr _ => "list"
  | .obj _ => "dict"

/-- The Python exceptions that can arise in the request pipeline.  cortex
stands for the CortexException hierarchy raised by library or hook code. -/
inductive PyErr where
  | valueError : String → PyErr
  | keyError : String → PyErr
  | typeError : String → PyErr
  | attributeError : String → String → PyErr
  | cortex : String → PyErr
deriving DecidableEq

/-- str(e) for each modelled exception (AttributeError and KeyError follow
the CPython message formats). -/
def strPyErr : PyErr → String
  | .valueError m => m
  | .keyError k => "\x27" ++ k ++ "\x27"
  | .typeError m => m
  | .attributeError ty attr =>
      "\x27" ++ ty ++ "\x27 object has no attribute \x27" ++ attr ++ "\x27"
  | .cortex m => m

/-- Python len() on a decoded JSON value: defined for list, dict and str,
TypeError otherwise.  Line 141 of the handler applies this to
payload["samples"] before the is_list validation. -/
def pyLen : Json → Except PyErr Nat
  | .arr xs => .ok xs.length
  | .obj kvs => .ok kvs.length
  | .str s => .ok s.length
  | v => .error (.typeError ("object of type \x27" ++ pyTypeName v ++ "\x27 has no len()"))

/-- An engine-reported input descriptor: the name, ONNX type string, and
shape of one model input as cached in local_cache["input_metadata"].  Unknown
dimensions are none.  The shape attribute of an onnxruntime NodeArg is a
read-only property that builds a fresh list on every access, so descriptors
are effectively immutable after load. -/
structure InputMeta where
  name : String
  type : String
  shape : List (Option Nat)
deriving DecidableEq

/-- The fixed ONNX-type-to-numpy-dtype table at the top of the module. -/
def onnx_to_np : List (String × String) :=
  [("tensor(float16)", "float16"),
   ("tensor(float)", "float32"),
   ("tensor(double)", "float64"),
   ("tensor(int32)", "int32"),
   ("tensor(int8)", "int8"),
   ("tensor(uint8)", "uint8"),
   ("tensor(int16)", "int16"),
   ("tensor(uint16)", "uint16"),
   ("tensor(int64)", "int64"),
   ("tensor(uint64)", "uint64"),
   ("tensor(bool)", "bool"),
   ("tensor(string)", "string")]

/-- The loop of transform_to_numpy lines 81-83, applied to the call-local
target shape list: every None entry is overwritten with 1; known dimensions
are kept. -/
def resolveShape : List (Option Nat) → List (Option Nat)
  | [] => []
  | none :: t => some 1 :: resolveShape t
  | some k :: t => some k :: resolveShape t

/-- A numpy ndarray as built from decoded JSON: recorded dtype name, concrete
shape, and the flattened scalar elements.  Numeric narrowing to the dtype is
not modelled (element values are kept as the JSON scalars); no claim depends
on it. -/
structure NpArr where
  dtype : String
  shape : List Nat
  data : List Json

/-- The shape numpy infers from a nested JSON value, following the first
element of every level (rectangularity is checked separately by rect). -/
def jshape : Json → List Nat
  | .arr [] => [0]
  | .arr (x :: xs) => (xs.length + 1) :: jshape x
  | _ => []

mutual

/-- The flattened scalar leaves of a nested JSON value. -/
def leaves : Json → List Json
  | .arr xs => leavesList xs
  | v => [v]

/-- Flattened leaves of a list of nested JSON values, in order. -/
def leavesList : List Json → List Json
  | [] => []
  | x :: xs => leaves x ++ leavesList xs

end

mutual

/-- Rectangularity check: every level of nesting has elements of one common
shape, as numpy requires when building a dense array. -/
def rect : Json → Bool
  | .arr [] => true
  | .arr (x :: xs) => rect x && rectList (jshape x) xs
  | _ => true

/-- All members of the list are rectangular with the given shape. -/
def rectList (s : List Nat) : List Json → Bool
  | [] => true
  | y :: ys => rect y && decide (jshape y = s) && rectList s ys

end

/-- Whether one scalar leaf can be converted to the target dtype.  JSON
numbers and booleans convert to every numeric dtype; None, strings and dicts
raise.  String-to-number parsing is not modelled; no claim depends on it. -/
def badLeaf (dtype : String) : Json → Option PyErr
  | .num _ => none
  | .bool _ => none
  | .null => some (.typeError ("conversion from NoneType to dtype " ++ dtype ++ " is not supported"))
  | .str _ => some (.typeError ("conversion from str to dtype " ++ dtype ++ " is not modelled"))
  | .obj _ => some (.typeError ("conversion from dict to dtype " ++ dtype ++ " is not supported"))
  | .arr _ => none

/-- First conversion error among the flattened leaves, if any. -/
def firstBad (dtype : String) : List Json → Option PyErr
  | [] => none
  | x :: xs =>
    match badLeaf dtype x with
    | some e => some e
    | none => firstBad dtype xs

/-- np.array(value, dtype=dtype) on a decoded JSON value: fails for the
invalid dtype name string, for non-convertible leaves, and for ragged
nesting; otherwise builds the dense array with the inferred shape. -/
def np_array (dtype : String) (v : Json) : Except PyErr NpArr :=
  if dtype = "string" then
    .error (.typeError "data type \x27string\x27 not understood")
  else
    match firstBad dtype (leaves v) with
    | some e => .error e
    | none =>
      if rect v then .ok { dtype := dtype, shape := jshape v, data := leaves v }
      else .error (.valueError "setting an array element with a sequence: ragged nested sequences")

/-- Product of a concrete shape, the element count numpy requires. -/
def prodList : List Nat → Nat
  | [] => 1
  | d :: ds => d * prodList ds

/-- np_arr.reshape(target_shape): succeeds exactly when the element count
matches the product of the target shape. -/
def NpArr.reshape (a : NpArr) (target : List Nat) : Except PyErr NpArr :=
  if prodList target = a.data.length then .ok { a with shape := target }
  else .error (.valueError ("cannot reshape array of size " ++ toString a.data.length ++ " into the requested shape"))

/-- ndarray.tolist at one nesting level: slice the flattened data into chunks
of the inner size. -/
def tolistAux : List Nat → List Json → Json
  | [], data =>
    match data with
    | x :: _ => x
    | [] => Json.null
  | d :: ds, data =>
    Json.arr ((List.range d).map (fun i => tolistAux ds ((data.drop (i * prodList ds)).take (prodList ds))))

/-- ndarray.tolist: the nested-sequence form of a dense array. -/
def NpArr.tolist (a : NpArr) : Json := tolistAux a.shape a.data

/-- The shape attribute access on line 79.  onnxruntime NodeArg.shape is a
read-only pybind property that builds a fresh Python list from the
underlying type proto on every access, so the assignment
target_shape = input_metadata.shape copies the shape value, and the loop on
lines 81-83 mutates only that call-local list, never the descriptor. -/
def nodeArgShape (m : InputMeta) : List (Option Nat) := m.shape

/-- transform_to_numpy (lines 77-90).  Looks up the numpy dtype (KeyError on
an unknown engine type), reads the descriptor shape through the NodeArg
property (a fresh list per access, see nodeArgShape), overwrites unknown
dimensions of that call-local list with 1, builds the array from the JSON
value (decoded JSON is never already an ndarray, so the type check on line
85 always takes the np.array branch), and reshapes it to the resolved local
shape.  The first component packages the call-local resolved target shape
with the descriptor name and type, for use in specifications; the
descriptor argument itself is never written, so the shared metadata is
identical before and after the call. -/
def transform_to_numpy (input_pyobj : Json) (input_metadata : InputMeta) :
    InputMeta × Except PyErr NpArr :=
  match assocLookup onnx_to_np input_metadata.type with
  | none => (input_metadata, .error (.keyError input_metadata.type))
  | some target_dtype =>
    let target_shape := resolveShape (nodeArgShape input_metadata)
    ({ input_metadata with shape := target_shape },
      match np_array target_dtype input_pyobj with
      | .error e => .error e
      | .ok np_arr => np_arr.reshape (target_shape.map (fun d => d.getD 1)))

/-- Evaluation of the expression sample.is_dict(input_metadata) on line 109.
A decoded JSON value is a Python NoneType, bool, int, float, str, list or
dict, and none of those types defines a method or attribute named is_dict,
so the attribute access always raises AttributeError; the argument is never
consumed. -/
def jsonAttrCall (recv : Json) (attr : String) (_arg : InputMeta) : Except PyErr Bool :=
  .error (.attributeError (pyTypeName recv) attr)

/-- The multi-input loop of convert_to_onnx_input (lines 108-118), one
iteration per descriptor.  Each iteration first evaluates
sample.is_dict(input_metadata), which raises AttributeError on every decoded
JSON sample, so the remaining statements (the ValueError naming all expected
keys, the per-key presence check, and the coercion call that passes the whole
sample rather than sample[name]) are unreachable; they are embedded anyway,
mirroring the source. -/
def convertMulti (sample : Json) (all : List InputMeta) :
    List InputMeta → Except PyErr (List (String × NpArr))
  | [] => .ok []
  | input_metadata :: rest =>
    match jsonAttrCall sample "is_dict" input_metadata with
    | .error e => .error e
    | .ok b =>
      if !b then
        .error (.valueError ("sample should be a dict containing keys: " ++
          String.intercalate ", " (all.map (fun m => m.name))))
      else if getIsNone sample input_metadata.name then
        .error (.valueError ("sample should be a dict containing key: " ++ input_metadata.name))
      else
        match (transform_to_numpy sample input_metadata).2 with
        | .error e => .error e
        | .ok t =>
          match convertMulti sample all rest with
          | .error e => .error e
          | .ok xs => .ok ((input_metadata.name, t) :: xs)

/-- convert_to_onnx_input (lines 93-119).  The first component is the
descriptor list as seen after the call: unchanged, because tensor coercion
resolves shapes on call-local lists only (see nodeArgShape).  The second is
the built input dict or the raised exception.  Single-descriptor case: a
dict sample must hold the descriptor name with a non-None value
(sample.get(name) is None raises ValueError), otherwise the whole sample is
coerced.  Any other descriptor count takes the multi-input loop. -/
def convert_to_onnx_input (sample : Json) (input_metadata_list : List InputMeta) :
    List InputMeta × Except PyErr (List (String × NpArr)) :=
  (input_metadata_list,
   match input_metadata_list with
   | [input_metadata] =>
     if is_dict sample then
       match jsonGet sample input_metadata.name with
       | none =>
         .error (.valueError ("sample should be a dict containing key: " ++ input_metadata.name))
       | some Json.null =>
         .error (.valueError ("sample should be a dict containing key: " ++ input_metadata.name))
       | some v =>
         Except.map (fun t => [(input_metadata.name, t)]) (transform_to_numpy v input_metadata).2
     else
       Except.map (fun t => [(input_metadata.name, t)]) (transform_to_numpy sample input_metadata).2
   | metas => convertMulti sample metas metas)

/-- One output of sess.run: either a numpy ndarray or any other Python value
(the type check on line 164 distinguishes exactly these two cases). -/
inductive EngineOut where
  | ndarray : NpArr → EngineOut
  | other : Json → EngineOut

/-- The body of the output loop (lines 163-167): ndarray outputs become
their nested-list form, anything else is appended unchanged. -/
def marshalOne : EngineOut → Json
  | .ndarray a => a.tolist
  | .other v => v

/-- The output marshalling loop of predict (lines 162-167): start from an
empty result list and append the marshalled form of each engine output in
order. -/
def marshalOutputs (model_outputs : List EngineOut) : List Json :=
  model_outputs.foldl (fun result o => result ++ [marshalOne o]) []

/-- A user hook (pre_inference or post_inference): opaque external code that
transforms one JSON value or raises.  The descriptor argument the source also
passes is omitted: hooks are unconstrained collaborators, so quantifying over
the transformation of the data argument already covers every behaviour a
claim mentions. -/
abbrev Hook := Json → Except PyErr Json

/-- sess.run on a built input dict: opaque engine call returning the output
list in engine order, or raising. -/
abbrev RunFn := List (String × NpArr) → Except PyErr (List EngineOut)

/-- Outcome of the predict handler for an already-decoded body: a 406
prediction_failed response carrying the offending sample and reason, a 200
response carrying the predictions list and resource id, or an exception that
escapes the handler (flask turns it into a 500 Internal Server Error). -/
inductive PredictOut where
  | failed : Json → Option String → PredictOut
  | ok : List Json → String → PredictOut
  | pyError : PyErr → PredictOut

/-- prediction_failed (lines 63-69): logs and returns the failure message
with HTTP 406; the embedding keeps the offending sample and reason
structurally. -/
def prediction_failed (sample : Json) (reason : Option String) : PredictOut :=
  .failed sample reason

/-- HTTP status of a handler outcome. -/
def statusOf : PredictOut → Nat
  | .failed _ _ => 406
  | .ok _ _ => 200
  | .pyError _ => 500

/-- Modelled from the spec: CortexException.wrap is library code outside
src.  A CortexException caught in the per-sample loop is wrapped with the
one-based sample index before being stringified (lines 174-180); any other
exception is stringified directly (lines 181-185).  No claim depends on the
exact wrapped text. -/
def errString (i : Nat) (e : PyErr) : String :=
  match e with
  | .cortex m => "sample " ++ toString (i + 1) ++ ": error: " ++ m
  | e2 => strPyErr e2

/-- The per-sample body after the optional pre-inference hook has produced
sample s (lines 160-173): dispatch, engine call, output marshalling,
optional post-inference hook, and wrapping as a prediction dict.  Returns
the descriptor list (unchanged by the call), the sample value the except
blocks would report, and the prediction or the raised exception. -/
def sampleStepCore (post : Option Hook) (run : RunFn) (metasSt : List InputMeta) (s : Json) :
    List InputMeta × Json × Except PyErr Json :=
  let cv := convert_to_onnx_input s metasSt
  (cv.1, s,
    match cv.2 with
    | .error e => .error e
    | .ok inputs =>
      match run inputs with
      | .error e => .error e
      | .ok outs =>
        let result := marshalOutputs outs
        match post with
        | none => .ok (Json.obj [("prediction", Json.arr result)])
        | some g =>
          match g (Json.arr result) with
          | .error e => .error e
          | .ok r => .ok (Json.obj [("prediction", r)]))

/-- One iteration of the per-sample loop including the optional
pre-inference hook (lines 157-173).  When the hook raises, the sample
variable still holds the raw sample; otherwise it is rebound to the hook
result before the remaining steps run. -/
def sampleStep (pre post : Option Hook) (run : RunFn) (metasSt : List InputMeta) (sample : Json) :
    List InputMeta × Json × Except PyErr Json :=
  match pre with
  | none => sampleStepCore post run metasSt sample
  | some f =>
    match f sample with
    | .error e => (metasSt, sample, .error e)
    | .ok s2 => sampleStepCore post run metasSt s2

/-- The per-sample loop of predict (lines 151-187): process samples in
order, abort with prediction_failed on the first exception, and collect the
prediction dicts otherwise; on full success respond with the predictions
and the api resource id (lines 189-192). -/
def predictLoop (pre post : Option Hook) (run : RunFn) (apiId : String) :
    List InputMeta → Nat → List Json → List Json → PredictOut
  | _, _, acc, [] => .ok acc apiId
  | metas, i, acc, sample :: rest =>
    let step := sampleStep pre post run metas sample
    match step.2.2 with
    | .error e => prediction_failed step.2.1 (some (errString i e))
    | .ok p => predictLoop pre post run apiId metas (i + 1) (acc ++ [p]) rest

/-- The predict handler for an already-decoded request body (lines 129-192;
JSON decoding itself, line 124-127, precedes this and yields 400 on failure).
Top-level validation: the body must be a dict containing the key samples,
else 406.  Line 141 then takes len(payload["samples"]) before the is_list
validation on line 145, so a samples value without a length raises TypeError
past the handler.  A non-list samples value with a length yields 406, and
otherwise the per-sample loop runs. -/
def predict (pre post : Option Hook) (run : RunFn) (apiId : String)
    (metas : List InputMeta) (payload : Json) : PredictOut :=
  if !(is_dict payload) || !(jsonHasKey payload "samples") then
    prediction_failed payload (some "top level `samples` key not found in request")
  else
    match pyLen (jsonGetD payload "samples") with
    | .error e => .pyError e
    | .ok _ =>
      if !(is_list (jsonGetD payload "samples")) then
        prediction_failed payload (some "expected the value of key `samples` to be a list of json objects")
      else
        predictLoop pre post run apiId metas 0 [] (asArr (jsonGetD payload "samples"))

/-- The prediction outcome of one sample against the cached descriptor
list: the per-sample pipeline the batch theorems are stated with. -/
def predSample (pre post : Option Hook) (run : RunFn) (metas : List InputMeta) (s : Json) :
    Except PyErr Json :=
  (sampleStep pre post run metas s).2.2

/-- The sample value the except blocks report for one sample (the raw sample
or, once the pre-inference hook has succeeded, its result). -/
def usedSample (pre post : Option Hook) (run : RunFn) (metas : List InputMeta) (s : Json) : Json :=
  (sampleStep pre post run metas s).2.1

/-! Helper lemmas: shape resolution as a map, the local view returned by
tensor coercion, and the behaviour of the per-sample loop. -/

lemma resolveShape_eq_map (s : List (Option Nat)) :
    resolveShape s = s.map (fun d => some (d.getD 1)) := by
  induction s with
  | nil => rfl
  | cons d t ih => cases d <;> simp [resolveShape, ih]

lemma transform_fst (v : Json) (m : InputMeta) :
    (transform_to_numpy v m).1 =
      match assocLookup onnx_to_np m.type with
      | none => m
      | some _ => { m with shape := resolveShape (nodeArgShape m) } := by
  unfold transform_to_numpy
  cases h : assocLookup onnx_to_np m.type <;> simp [h]

lemma convertMulti_cons (s : Json) (all : List InputMeta) (m : InputMeta) (rest : List InputMeta) :
    convertMulti s all (m :: rest) = .error (.attributeError (pyTypeName s) "is_dict") := rfl

lemma foldl_append_eq_map {α β : Type} (f : α → β) (l : List α) :
    ∀ acc : List β, l.foldl (fun r o => r ++ [f o]) acc = acc ++ l.map f := by
  induction l with
  | nil => intro acc; simp
  | cons x t ih => intro acc; simp [ih]

lemma predictLoop_ok (pre post : Option Hook) (run : RunFn) (apiId : String)
    (metas : List InputMeta) :
    ∀ (samples : List Json) (i : Nat) (acc : List Json),
      (∀ s ∈ samples, ∃ p, predSample pre post run metas s = .ok p) →
      predictLoop pre post run apiId metas i acc samples
        = .ok (acc ++ samples.map
            (fun s => (predSample pre post run metas s).toOption.getD Json.null)) apiId := by
  intro samples
  induction samples with
  | nil => intro i acc _; simp [predictLoop]
  | cons s rest ih =>
    intro i acc hall
    obtain ⟨p, hp⟩ := hall s (List.mem_cons_self s rest)
    have hp2 : (sampleStep pre post run metas s).2.2 = .ok p := hp
    simp only [predictLoop, hp2]
    rw [ih (i + 1) (acc ++ [p]) (fun t ht => hall t (List.mem_cons_of_mem s ht))]
    simp [hp, Except.toOption]

lemma predictLoop_fail (pre post : Option Hook) (run : RunFn) (apiId : String)
    (metas : List InputMeta) (e : PyErr) (bad : Json) :
    ∀ (good rest : List Json) (i : Nat) (acc : List Json),
      (∀ s ∈ good, ∃ p, predSample pre post run metas s = .ok p) →
      predSample pre post run metas bad = .error e →
      predictLoop pre post run apiId metas i acc (good ++ bad :: rest)
        = prediction_failed (usedSample pre post run metas bad)
            (some (errString (i + good.length) e)) := by
  intro good
  induction good with
  | nil =>
    intro rest i acc _ hbad
    have h22 : (sampleStep pre post run metas bad).2.2 = .error e := hbad
    have h21 : (sampleStep pre post run metas bad).2.1
        = usedSample pre post run metas bad := rfl
    simp only [List.nil_append, predictLoop, h22, h21, List.length_nil, Nat.add_zero]
  | cons g tail ih =>
    intro rest i acc hall hbad
    obtain ⟨p, hp⟩ := hall g (List.mem_cons_self g tail)
    have hp2 : (sampleStep pre post run metas g).2.2 = .ok p := hp
    have hstep : (g :: tail) ++ bad :: rest = g :: (tail ++ bad :: rest) := rfl
    rw [hstep]
    simp only [predictLoop, hp2]
    rw [ih rest (i + 1) (acc ++ [p])
          (fun t ht => hall t (List.mem_cons_of_mem g ht)) hbad]
    have harith : i + 1 + tail.length = i + (g :: tail).length := by
      simp [List.length_cons]; omega
    rw [harith]

/-- Reduction of the predict handler on a well-formed body to the per-sample
loop started from the cached descriptor list. -/
lemma predict_obj_samples (pre post : Option Hook) (run : RunFn) (apiId : String)
    (metas : List InputMeta) (samples : List Json) :
    predict pre post run apiId metas (Json.obj [("samples", Json.arr samples)])
      = predictLoop pre post run apiId metas 0 [] samples := rfl

/-! Concrete model fixtures used by the closed theorems: small descriptor
lists, engine stubs and sample batches. -/

/-- A float input with one unknown dimension, shape [None, 3]. -/
def mNone3 : InputMeta := { name := "input", type := "tensor(float)", shape := [none, some 3] }

/-- A scalar float input named input. -/
def mIn : InputMeta := { name := "input", type := "tensor(float)", shape := [some 1] }

/-- A scalar float input named feature. -/
def mFeat : InputMeta := { name := "feature", type := "tensor(float)", shape := [some 1] }

/-- First input of a two-input model. -/
def mA : InputMeta := { name := "a", type := "tensor(float)", shape := [some 1] }

/-- Second input of a two-input model. -/
def mB : InputMeta := { name := "b", type := "tensor(float)", shape := [some 1] }

/-- A float input of shape [2]. -/
def mSingle : InputMeta := { name := "input", type := "tensor(float)", shape := [some 2] }

/-- Engine stub returning no outputs. -/
def run0 : RunFn := fun _ => .ok []

/-- Engine stub returning one non-array output. -/
def run7 : RunFn := fun _ => .ok [.other (Json.num 7)]

/-- Engine stub returning one dense array output of shape [1]. -/
def run8 : RunFn := fun _ => .ok [.ndarray { dtype := "float32", shape := [1], data := [Json.num 8] }]

/-- A two-sample batch of scalars. -/
def samples8 : List Json := [Json.num 5, Json.num 6]

/-! The claims. -/

/-- C1: tensor coercion is a pure function of its two inputs with no side
effects on the shared descriptors.  NodeArg.shape is a read-only property
that builds a fresh list on every access (nodeArgShape), so the resolution
loop on lines 81-83 rewrites only the call-local target shape, and the
descriptor list a dispatch reads is the same before and after the call: the
dispatcher returns the descriptor list unchanged, the shape read from a
descriptor is always its declared shape, and the first component of
transform_to_numpy is only the call-local resolved view (the descriptor
itself when the dtype lookup raises before the shape is read). -/
theorem C1_coercion_pure (v s : Json) (m : InputMeta) (metas : List InputMeta) :
    (convert_to_onnx_input s metas).1 = metas
    ∧ nodeArgShape m = m.shape
    ∧ ((transform_to_numpy v m).1 =
        match assocLookup onnx_to_np m.type with
        | none => m
        | some _ => { m with shape := resolveShape (nodeArgShape m) }) :=
  ⟨rfl, rfl, transform_fst v m⟩

/-- C2: with two declared inputs, dispatch on a non-mapping sample and on a
mapping missing a required key both raise AttributeError (line 109 calls
sample.is_dict(input_metadata) instead of util.is_dict(sample)), not the
ValueError naming all expected keys. -/
theorem C2_multi_input_attribute_error :
    ((convert_to_onnx_input (Json.num 42) [mA, mB]).2
        = .error (.attributeError "int" "is_dict"))
    ∧ ((convert_to_onnx_input (Json.obj [("a", Json.num 1)]) [mA, mB]).2
        = .error (.attributeError "dict" "is_dict")) :=
  ⟨rfl, rfl⟩

/-- C3: with two declared inputs and a mapping sample containing every
required key, dispatch still raises AttributeError on the first loop
iteration and never invokes tensor coercion on any resolved value. -/
theorem C3_multi_input_never_coerces :
    (convert_to_onnx_input (Json.obj [("a", Json.num 1), ("b", Json.num 2)]) [mA, mB]).2
      = .error (.attributeError "dict" "is_dict") := rfl

/-- C4: a decoded body that is a mapping with a samples key whose value is a
number is not answered with 406: line 141 evaluates len(payload["samples"])
before the is_list validation, so TypeError escapes the handler (a 500, not
the claimed 406). -/
theorem C4_samples_without_len_raises :
    (predict none none run0 "api" [mIn] (Json.obj [("samples", Json.num 5)])
        = .pyError (.typeError "object of type \x27int\x27 has no len()"))
    ∧ statusOf (predict none none run0 "api" [mIn] (Json.obj [("samples", Json.num 5)])) = 500 :=
  ⟨rfl, rfl⟩

/-- C5: batch processing is all-or-nothing: when every sample before index i
succeeds and the sample at index i fails with any exception, the handler
returns the 406 prediction_failed response carrying that sample and its
error, and no predictions list is produced. -/
theorem C5_batch_all_or_nothing (pre post : Option Hook) (run : RunFn) (apiId : String)
    (metas : List InputMeta) (good rest : List Json) (bad : Json) (e : PyErr)
    (hgood : ∀ s ∈ good, ∃ p, predSample pre post run metas s = .ok p)
    (hbad : predSample pre post run metas bad = .error e) :
    predict pre post run apiId metas (Json.obj [("samples", Json.arr (good ++ bad :: rest))])
        = prediction_failed (usedSample pre post run metas bad)
            (some (errString good.length e))
    ∧ statusOf (predict pre post run apiId metas
          (Json.obj [("samples", Json.arr (good ++ bad :: rest))])) = 406 := by
  have h := predictLoop_fail pre post run apiId metas e bad good rest 0 [] hgood hbad
  rw [Nat.zero_add] at h
  refine ⟨?_, ?_⟩
  · rw [predict_obj_samples]; exact h
  · rw [predict_obj_samples, h]; rfl

/-- C5 witness: a two-sample batch whose second sample lacks the single
declared input key yields one 406 referencing that sample, with no
predictions. -/
theorem C5_witness :
    predict none none run7 "api" [mSingle]
        (Json.obj [("samples", Json.arr
          [Json.arr [Json.num 1, Json.num 2], Json.obj [("x", Json.null)]])])
        = prediction_failed (Json.obj [("x", Json.null)])
            (some "sample should be a dict containing key: input")
    ∧ statusOf (predict none none run7 "api" [mSingle]
        (Json.obj [("samples", Json.arr
          [Json.arr [Json.num 1, Json.num 2], Json.obj [("x", Json.null)]])])) = 406 :=
  C5_batch_all_or_nothing none none run7 "api" [mSingle]
    [Json.arr [Json.num 1, Json.num 2]] [] (Json.obj [("x", Json.null)])
    (.valueError "sample should be a dict containing key: input")
    (by
      intro s hs
      rw [List.mem_singleton] at hs
      subst hs
      exact ⟨Json.obj [("prediction", Json.arr [Json.num 7])], rfl⟩)
    rfl

/-- C6 counterexample: a mapping that does contain the sole input name, bound
to null, is answered with the missing-key ValueError rather than with the
coercion of that value (whose own failure would be a TypeError), so the
middle clause of the claim fails at this input. -/
theorem C6_counterexample :
    ((convert_to_onnx_input (Json.obj [("input", Json.null)]) [mIn]).2
        = Except.error (PyErr.valueError "sample should be a dict containing key: input"))
    ∧ (Except.map (fun t => [("input", t)]) (transform_to_numpy Json.null mIn).2
        = Except.error (PyErr.typeError "conversion from NoneType to dtype float32 is not supported"))
    ∧ ((convert_to_onnx_input (Json.obj [("input", Json.null)]) [mIn]).2
        ≠ Except.map (fun t => [("input", t)]) (transform_to_numpy Json.null mIn).2) := by
  refine ⟨rfl, rfl, fun h => ?_⟩
  exact PyErr.noConfusion (Except.error.inj h)

/-- C6 (amended): for a single declared input, dispatch on a non-mapping
sample coerces the whole sample under the sole input name; on a mapping
binding the name to a non-null value it coerces that value; and on a mapping
lacking the name or binding it to null it fails with the missing-key
ValueError. -/
theorem C6_single_input_dispatch (m : InputMeta) (s : Json) :
    (convert_to_onnx_input s [m]).2 =
      (if is_dict s then
        match jsonGet s m.name with
        | some v =>
          if isNull v then
            Except.error (PyErr.valueError ("sample should be a dict containing key: " ++ m.name))
          else Except.map (fun t => [(m.name, t)]) (transform_to_numpy v m).2
        | none =>
          Except.error (PyErr.valueError ("sample should be a dict containing key: " ++ m.name))
      else Except.map (fun t => [(m.name, t)]) (transform_to_numpy s m).2) := by
  by_cases hd : is_dict s
  · simp only [convert_to_onnx_input, hd, if_true]
    cases hj : jsonGet s m.name with
    | none => rfl
    | some v => cases v <;> rfl
  · simp only [convert_to_onnx_input, hd, if_false, Bool.false_eq_true]

/-- C7: unknown dimensions always resolve to 1 (the resolved shape is the
declared shape with every None replaced by some 1), and coercing [1,2,3]
against the [None, 3] descriptor yields a tensor of concrete shape [1,3]. -/
theorem C7_unknown_dims_resolve_to_one :
    (∀ shape : List (Option Nat), resolveShape shape = shape.map (fun d => some (d.getD 1)))
    ∧ (transform_to_numpy (Json.arr [Json.num 1, Json.num 2, Json.num 3]) mNone3).2
        = Except.ok { dtype := "float32", shape := [1, 3],
                      data := [Json.num 1, Json.num 2, Json.num 3] }
    ∧ (transform_to_numpy (Json.arr [Json.num 1, Json.num 2, Json.num 3]) mNone3).1.shape
        = [some 1, some 3] :=
  ⟨resolveShape_eq_map, rfl, rfl⟩

/-- C8: when every sample of the batch succeeds, the handler responds 200
with the predictions in request order, one per sample (the predictions list
is the map of the per-sample pipeline over the samples list, so index i
holds the result of sample i), together with the api resource id. -/
theorem C8_full_success_batch (pre post : Option Hook) (run : RunFn) (apiId : String)
    (metas : List InputMeta) (samples : List Json)
    (h : ∀ s ∈ samples, ∃ p, predSample pre post run metas s = .ok p) :
    predict pre post run apiId metas (Json.obj [("samples", Json.arr samples)])
        = PredictOut.ok (samples.map
            (fun s => (predSample pre post run metas s).toOption.getD Json.null)) apiId
    ∧ (samples.map (fun s => (predSample pre post run metas s).toOption.getD Json.null)).length
        = samples.length
    ∧ statusOf (predict pre post run apiId metas (Json.obj [("samples", Json.arr samples)])) = 200 := by
  have hl := predictLoop_ok pre post run apiId metas samples 0 [] h
  rw [List.nil_append] at hl
  refine ⟨?_, by simp, ?_⟩
  · rw [predict_obj_samples]; exact hl
  · rw [predict_obj_samples, hl]; rfl

/-- C8 witness: a two-sample batch against a single-input model with a stub
engine yields 200 and one prediction per sample, in order. -/
theorem C8_witness :
    predict none none run8 "api-1" [mIn] (Json.obj [("samples", Json.arr samples8)])
        = PredictOut.ok [Json.obj [("prediction", Json.arr [Json.arr [Json.num 8]])],
                         Json.obj [("prediction", Json.arr [Json.arr [Json.num 8]])]] "api-1"
    ∧ statusOf (predict none none run8 "api-1" [mIn]
        (Json.obj [("samples", Json.arr samples8)])) = 200 :=
  ⟨(C8_full_success_batch none none run8 "api-1" [mIn] samples8
      (by
        intro s hs
        have h2 : s = Json.num 5 ∨ s = Json.num 6 := by simpa [samples8] using hs
        rcases h2 with h2 | h2 <;> subst h2 <;>
          exact ⟨Json.obj [("prediction", Json.arr [Json.arr [Json.num 8]])], rfl⟩)).1,
   (C8_full_success_batch none none run8 "api-1" [mIn] samples8
      (by
        intro s hs
        have h2 : s = Json.num 5 ∨ s = Json.num 6 := by simpa [samples8] using hs
        rcases h2 with h2 | h2 <;> subst h2 <;>
          exact ⟨Json.obj [("prediction", Json.arr [Json.arr [Json.num 8]])], rfl⟩)).2.2⟩

/-- C9: the output marshalling loop maps each engine output through the
per-output conversion in engine order (one JSON value per output), where a
dense array output becomes its nested-list form and any non-array output
passes through unchanged. -/
theorem C9_output_marshalling (outs : List EngineOut) :
    marshalOutputs outs = outs.map marshalOne
    ∧ (marshalOutputs outs).length = outs.length
    ∧ (∀ a : NpArr, marshalOne (.ndarray a) = NpArr.tolist a)
    ∧ (∀ v : Json, marshalOne (.other v) = v) := by
  have h := foldl_append_eq_map marshalOne outs []
  rw [List.nil_append] at h
  exact ⟨h, by rw [show marshalOutputs outs = outs.map marshalOne from h]; simp,
    fun a => rfl, fun v => rfl⟩

/-- C10: for a single declared input, a mapping sample whose value at the
sole input name is JSON null is rejected with the same missing-key
ValueError as an absent key: presence is decided by get(name) is None, not
by key membership. -/
theorem C10_null_key_treated_missing (m : InputMeta) (s : Json)
    (hk : jsonGet s m.name = some Json.null) :
    (convert_to_onnx_input s [m]).2
      = Except.error (PyErr.valueError ("sample should be a dict containing key: " ++ m.name)) := by
  cases s with
  | obj kvs => simp [convert_to_onnx_input, is_dict, hk]
  | null => simp [jsonGet] at hk
  | bool b => simp [jsonGet] at hk
  | num n => simp [jsonGet] at hk
  | str t => simp [jsonGet] at hk
  | arr xs => simp [jsonGet] at hk

/-- C10 witness: the key feature bound to null is rejected exactly like a
missing key. -/
theorem C10_witness :
    (convert_to_onnx_input (Json.obj [("feature", Json.null)]) [mFeat]).2
      = Except.error (PyErr.valueError ("sample should be a dict containing key: " ++ mFeat.name)) :=
  C10_null_key_treated_missing mFeat (Json.obj [("feature", Json.null)]) rfl
